import Mathlib

/-!
Verification of the AI content-generation orchestration layer of the E.vol
repository (`src/lib` AI module, second half of `music.js`): the
`generateQuestion` orchestrator, its cache, the local-server probe
`checkLocalAI`, the local and remote backend adapters, and the static
fallback table.

The JavaScript module is shallowly embedded: artifacts (JS objects) become a
structure of optional fields, JS object spread becomes field-wise override,
the `Map` cache becomes an association list, `Date.now()` becomes an explicit
`now : Nat` parameter, and each awaited HTTP interaction becomes an explicit
outcome value supplied by a `RequestWorld`.  Fallible adapters return
`Except`; the orchestrator itself is a total function, mirroring the fact
that every rejection is caught inside it.
-/

set_option maxRecDepth 4096

namespace EVol

/-- Performance metadata attached by the local adapter
(`performance: { inference_time_ms, tokens_per_second }`). -/
structure Performance where
  inference_time_ms : Option Nat := none
  tokens_per_second : Option Nat := none
  deriving DecidableEq, Repr

/-- A generated artifact: a JS object with the fields the module reads or
writes.  Absent keys are `none`.  Covers the riddle / trivia / emoji / word
variants plus the bookkeeping fields the module adds (`source`, `cached`,
`model_used`, `performance`, `text`, and the raw local-server metrics). -/
structure Artifact where
  q : Option String := none
  a : Option String := none
  hint : Option String := none
  question : Option String := none
  answer : Option String := none
  choices : Option (List String) := none
  answerIdx : Option Nat := none
  grade : Option Nat := none
  emojis : Option String := none
  word : Option String := none
  category : Option String := none
  difficulty : Option String := none
  source : Option String := none
  cached : Option Bool := none
  model_used : Option String := none
  text : Option String := none
  inference_time_ms : Option Nat := none
  tokens_per_second : Option Nat := none
  performance : Option Performance := none
  deriving DecidableEq, Repr

/-- JS spread `{...base, ...over}`: keys present in `over` win, keys absent
in `over` keep the base value. -/
def jsOver {α : Type} (over base : Option α) : Option α :=
  match over with
  | some v => some v
  | none => base

/-- `{...base, ...over}` on artifacts, field by field. -/
def mergeArtifact (base over : Artifact) : Artifact where
  q := jsOver over.q base.q
  a := jsOver over.a base.a
  hint := jsOver over.hint base.hint
  question := jsOver over.question base.question
  answer := jsOver over.answer base.answer
  choices := jsOver over.choices base.choices
  answerIdx := jsOver over.answerIdx base.answerIdx
  grade := jsOver over.grade base.grade
  emojis := jsOver over.emojis base.emojis
  word := jsOver over.word base.word
  category := jsOver over.category base.category
  difficulty := jsOver over.difficulty base.difficulty
  source := jsOver over.source base.source
  cached := jsOver over.cached base.cached
  model_used := jsOver over.model_used base.model_used
  text := jsOver over.text base.text
  inference_time_ms := jsOver over.inference_time_ms base.inference_time_ms
  tokens_per_second := jsOver over.tokens_per_second base.tokens_per_second
  performance := jsOver over.performance base.performance

/-! ## Cache (`questionCache : Map`, `CACHE_DURATION`) -/

/-- `const CACHE_DURATION = 5 * 60 * 1000` (5 minutes, in ms). -/
def CACHE_DURATION : Nat := 5 * 60 * 1000

/-- One `questionCache` entry: `{ data, timestamp }`. -/
structure CacheEntry where
  data : Artifact
  timestamp : Nat
  deriving DecidableEq, Repr

/-- The `questionCache` map, as an association list keyed by cache key. -/
def Cache : Type := List (String × CacheEntry)

/-- `Map.get`. -/
def cacheGet : Cache → String → Option CacheEntry
  | [], _ => none
  | (k, e) :: rest, key => if k = key then some e else cacheGet rest key

/-- `Map.set`: replace the existing binding for the key, or append. -/
def cacheSet : Cache → String → CacheEntry → Cache
  | [], key, e => [(key, e)]
  | (k, e') :: rest, key, e =>
    if k = key then (key, e) :: rest else (k, e') :: cacheSet rest key e

/-- `Map.delete` (used only to state that an expired entry behaves as a
miss: the run is compared with the run on the cache without the entry). -/
def cacheErase : Cache → String → Cache
  | [], _ => []
  | (k, e) :: rest, key =>
    if k = key then cacheErase rest key else (k, e) :: cacheErase rest key

/-! ## Environment of one request -/

/-- Outcome of the `axios.get(LOCAL_AI_URL + "/health", { timeout: 2000 })`
probe: either the promise rejects (network error, or no response within the
2000 ms timeout), or a response arrived within the timeout and
`response.data.status` is the given string. -/
inductive HealthProbe where
  | failure
  | reply (status : String)
  deriving DecidableEq, Repr

/-- `{ timeout: 2000 }` on the health probe (2 s). -/
def LOCAL_TIMEOUT_MS : Nat := 2000

/-- Outcome of the `axios.post(DEEPSEEK_API_URL, ...)` call: either the
promise rejects, or it resolves with `response.status` and the message
content `response.data.choices[0].message.content`. -/
inductive RemoteOutcome where
  | failure
  | reply (status : Nat) (content : String)
  deriving DecidableEq, Repr

/-- Remote-adapter error taxonomy of `generateWithAPI`: the thrown
`Error` messages, by kind. -/
inductive ApiError where
  | notConfigured
  | network
  | paymentRequired
  | unauthorized
  | rateLimited
  deriving DecidableEq, Repr

/-- External inputs consumed by one `generateQuestion` run: the health
probe outcome, the local `/generate` response data (`none` when that call
rejects), the configured `VITE_DEEPSEEK_API_KEY`, the remote call outcome,
and the host JSON extractor (`content.match(/\x7b[\s\S]*\x7d/)` followed by
`JSON.parse`, `none` when there is no match or parsing throws). -/
structure RequestWorld where
  health : HealthProbe
  localResp : Option Artifact
  apiKey : Option String
  remote : RemoteOutcome
  parseJson : String → Option Artifact

/-! ## The probe and the two backend adapters -/

/-- `checkLocalAI()`: `true` iff the `/health` endpoint answered within the
timeout with `response.data.status === "healthy"`; every rejection is caught
and yields `false`. -/
def checkLocalAI (p : HealthProbe) : Bool :=
  match p with
  | .reply status => status = "healthy"
  | .failure => false

/-- `generateWithLocalAI(gameType, difficulty, topic)`: posts to
`/generate` and, on success, spreads `response.data` and tags
`source: "local"` plus the `performance` block built from the response
metrics.  A rejected post propagates as an error. -/
def generateWithLocalAI (gameType difficulty : String) (topic : Option String)
    (localResp : Option Artifact) : Except Unit Artifact :=
  match localResp with
  | none => .error ()
  | some d =>
    .ok { d with
          source := some "local"
          performance := some ⟨d.inference_time_ms, d.tokens_per_second⟩ }

/-- `!API_KEY || API_KEY === "YOUR_DEEPSEEK_API_KEY"` (JS falsiness: an
unset or empty key is falsy). -/
def apiKeyMissing (apiKey : Option String) : Bool :=
  match apiKey with
  | none => true
  | some k => k = "" || k = "YOUR_DEEPSEEK_API_KEY"

/-- `generateWithAPI(gameType, difficulty, topic)`: throws when the key is
missing or the placeholder; otherwise posts to DeepSeek; rethrows statuses
402 / 401 / 429 as specific errors; parses a JSON object out of the message
content and tags it `source: "api"`, `model_used: "deepseek-chat"`; when no
JSON object can be extracted, returns the hand-built response around the
raw content, likewise tagged `source: "api"`. -/
def generateWithAPI (gameType difficulty : String) (topic : Option String)
    (apiKey : Option String) (remote : RemoteOutcome)
    (parseJson : String → Option Artifact) : Except ApiError Artifact :=
  if apiKeyMissing apiKey then .error .notConfigured
  else
    match remote with
    | .failure => .error .network
    | .reply status content =>
      if status = 402 then .error .paymentRequired
      else if status = 401 then .error .unauthorized
      else if status = 429 then .error .rateLimited
      else
        match parseJson content with
        | some j =>
          .ok { j with source := some "api", model_used := some "deepseek-chat" }
        | none =>
          .ok { question := some content
                answer := some "Generated content"
                hint := some "AI-generated content"
                difficulty := some difficulty
                category := some gameType
                source := some "api"
                model_used := some "deepseek-chat" }

/-! ## Static fallback table -/

/-- `fallbacks.riddle` (captures the request difficulty). -/
def riddleFallback (difficulty : String) : Artifact where
  q := some "I speak without a mouth and hear without ears. I have no body, but come alive with wind. What am I?"
  a := some "An echo"
  hint := some "Think about sound"
  difficulty := some difficulty
  category := some "logic"
  source := some "fallback"

/-- `fallbacks.trivia` (no difficulty field in the source object). -/
def triviaFallback : Artifact where
  grade := some 5
  question := some "What is the capital of France?"
  choices := some ["London", "Berlin", "Paris", "Madrid"]
  answerIdx := some 2
  category := some "geography"
  source := some "fallback"

/-- `fallbacks.emoji` (the emoji string is transcribed code point for code
point from the source file). -/
def emojiFallback (difficulty : String) : Artifact where
  emojis := some "üçéüì±"
  answer := some "APPLE"
  hint := some "Technology company"
  difficulty := some difficulty
  category := some "brand"
  source := some "fallback"

/-- `fallbacks.word`. -/
def wordFallback (difficulty : String) : Artifact where
  word := some "PUZZLE"
  category := some "Games"
  difficulty := some difficulty
  hint := some "What you\x27re solving right now"
  source := some "fallback"

/-- `fallbacks[type]` restricted to the own keys of the `fallbacks` object
literal: `none` when `type` is not one of its four own keys.  JS bracket
lookup additionally finds the inherited `Object.prototype` members; the
faithful rendering of the full lookup line is `fallbackLookup` below. -/
def fallbackTable (type difficulty : String) : Option Artifact :=
  if type = "riddle" then some (riddleFallback difficulty)
  else if type = "trivia" then some triviaFallback
  else if type = "emoji" then some (emojiFallback difficulty)
  else if type = "word" then some (wordFallback difficulty)
  else none

/-- `fallbacks[type] || fallbacks.riddle` under own-key lookup: faithful to
the program on every type that is not an inherited `Object.prototype`
member; at an inherited-member type the program instead returns that
truthy inherited member (see `fallbackLookup`). -/
def fallbackResult (type difficulty : String) : Artifact :=
  (fallbackTable type difficulty).getD (riddleFallback difficulty)

/-- The non-own keys that JS bracket lookup still finds on a plain object
literal: the members inherited from `Object.prototype`, all of them truthy
(functions, and the `__proto__` object). -/
def objectProtoKeys : List String :=
  ["constructor", "hasOwnProperty", "isPrototypeOf", "propertyIsEnumerable",
   "toLocaleString", "toString", "valueOf", "__proto__",
   "__defineGetter__", "__defineSetter__", "__lookupGetter__",
   "__lookupSetter__"]

/-- Value of the JS expression `fallbacks[type] || fallbacks.riddle`:
either an artifact row of the table, or — when `type` names an inherited
`Object.prototype` member — that truthy inherited member itself (a
function object, not an artifact), which short-circuits the `||`. -/
inductive FallbackLookup where
  | row (a : Artifact)
  | protoMember (name : String)
  deriving DecidableEq, Repr

/-- Faithful embedding of `return fallbacks[type] || fallbacks.riddle`: an
own key returns its row; an inherited `Object.prototype` key is truthy and
is returned as-is; only a key found nowhere on the prototype chain falls
through the `||` to the riddle row. -/
def fallbackLookup (type difficulty : String) : FallbackLookup :=
  match fallbackTable type difficulty with
  | some a => .row a
  | none =>
    if type ∈ objectProtoKeys then .protoMember type
    else .row (riddleFallback difficulty)

/-! ## The orchestrator `generateQuestion` -/

/-- `topic || "default"` (JS falsiness: `null` and the empty string both
fall to the sentinel). -/
def topicOr (topic : Option String) : String :=
  match topic with
  | none => "default"
  | some s => if s = "" then "default" else s

/-- The cache fingerprint: `` `${type}-${difficulty}-${topic || "default"}` ``. -/
def cacheKeyOf (type difficulty : String) (topic : Option String) : String :=
  type ++ "-" ++ difficulty ++ "-" ++ topicOr topic

/-- The dynamic tiers inside the `try` block: probe the local server; when
available, try the local adapter and on its failure the remote adapter;
when unavailable, go straight to the remote adapter. -/
def dynamicResult (type difficulty : String) (topic : Option String)
    (w : RequestWorld) : Except ApiError Artifact :=
  if checkLocalAI w.health then
    match generateWithLocalAI type difficulty topic w.localResp with
    | .ok r => .ok r
    | .error _ =>
      generateWithAPI type difficulty topic w.apiKey w.remote w.parseJson
  else
    generateWithAPI type difficulty topic w.apiKey w.remote w.parseJson

/-- The post-processing step: when `result.text` is a string, extract and
parse a JSON object from it and spread it over the result
(`result = { ...result, ...parsed }`); parse failures keep the result. -/
def applyTextParse (parseJson : String → Option Artifact) (r : Artifact) :
    Artifact :=
  match r.text with
  | some t =>
    match parseJson t with
    | some parsed => mergeArtifact r parsed
    | none => r
  | none => r

/-- `generateQuestion(type = "riddle", difficulty = "medium", topic = null)`:
cache lookup with 5-minute TTL; on hit, return `{...cached.data, cached: true}`
and leave the cache alone; otherwise run the dynamic tiers, post-process,
cache the result under the fingerprint with the current timestamp, and
return it; any error of the dynamic tiers is caught and answered from the
static fallback table, without touching the cache.  Returns the resolved
artifact together with the cache state after the call. -/
def generateQuestion (type difficulty : String) (topic : Option String)
    (now : Nat) (c : Cache) (w : RequestWorld) : Artifact × Cache :=
  let cacheKey := cacheKeyOf type difficulty topic
  match cacheGet c cacheKey with
  | some cached =>
    if now - cached.timestamp < CACHE_DURATION then
      ({ cached.data with cached := some true }, c)
    else
      match dynamicResult type difficulty topic w with
      | .ok r =>
        let result := applyTextParse w.parseJson r
        (result, cacheSet c cacheKey ⟨result, now⟩)
      | .error _ => (fallbackResult type difficulty, c)
  | none =>
    match dynamicResult type difficulty topic w with
    | .ok r =>
      let result := applyTextParse w.parseJson r
      (result, cacheSet c cacheKey ⟨result, now⟩)
    | .error _ => (fallbackResult type difficulty, c)

/-! ## Concrete fixtures used by counterexamples and witnesses -/

/-- A world in which every external interaction fails. -/
def trivialWorld : RequestWorld where
  health := .failure
  localResp := none
  apiKey := none
  remote := .failure
  parseJson := fun _ => none

/-- A world whose local probe fails, whose remote key is configured, and
whose remote call answers 200 with unparseable content. -/
def remoteWorld : RequestWorld where
  health := .failure
  localResp := none
  apiKey := some "sk-test"
  remote := .reply 200 "hello"
  parseJson := fun _ => none

/-- A locally produced artifact, as stored by a previous request. -/
def storedLocalArtifact : Artifact where
  q := some "What has keys but no locks?"
  a := some "A piano"
  source := some "local"

/-- A cache holding that artifact for `(riddle, medium, null)` at time 0. -/
def localEntryCache : Cache :=
  [(cacheKeyOf "riddle" "medium" none, ⟨storedLocalArtifact, 0⟩)]

/-! ## Helper lemmas -/

/-- `Map.set` then `Map.get`: the set key reads back the new entry, any
other key is untouched. -/
lemma cacheGet_cacheSet (c : Cache) (key k : String) (e : CacheEntry) :
    cacheGet (cacheSet c key e) k = if key = k then some e else cacheGet c k := by
  induction c with
  | nil => simp [cacheSet, cacheGet]
  | cons hd tl ih =>
    obtain ⟨k', e'⟩ := hd
    by_cases h1 : k' = key
    · subst h1
      by_cases h2 : k' = k
      · subst h2; simp [cacheSet, cacheGet]
      · simp [cacheSet, cacheGet, h2]
    · by_cases h2 : key = k
      · subst h2
        simp [cacheSet, cacheGet, h1, ih]
      · simp [cacheSet, cacheGet, h1, h2, ih]

/-- Erasing a key makes its lookup miss. -/
lemma cacheGet_cacheErase_self (c : Cache) (k : String) :
    cacheGet (cacheErase c k) k = none := by
  induction c with
  | nil => rfl
  | cons hd tl ih =>
    obtain ⟨k', e'⟩ := hd
    by_cases h : k' = k
    · simp [cacheErase, h, ih]
    · simp [cacheErase, cacheGet, h, ih]

/-- Every row of the static fallback table, the default row included, is
tagged `source = "fallback"`. -/
lemma fallbackResult_source (type difficulty : String) :
    (fallbackResult type difficulty).source = some "fallback" := by
  unfold fallbackResult fallbackTable
  split_ifs <;> rfl

/-- A successful local adapter call is tagged `source = "local"`. -/
lemma generateWithLocalAI_ok_source (t d : String) (top : Option String)
    (lr : Option Artifact) (r : Artifact)
    (h : generateWithLocalAI t d top lr = .ok r) : r.source = some "local" := by
  cases lr with
  | none => simp [generateWithLocalAI] at h
  | some dd =>
    simp only [generateWithLocalAI, Except.ok.injEq] at h
    rw [← h]

/-- A successful remote adapter call is tagged `source = "api"`. -/
lemma generateWithAPI_ok_source (t d : String) (top : Option String)
    (key : Option String) (rem : RemoteOutcome)
    (pj : String → Option Artifact) (r : Artifact)
    (h : generateWithAPI t d top key rem pj = .ok r) : r.source = some "api" := by
  by_cases hk : apiKeyMissing key = true
  · simp [generateWithAPI, hk] at h
  · cases rem with
    | failure => simp [generateWithAPI, hk] at h
    | reply status content =>
      simp only [generateWithAPI, hk, Bool.false_eq_true, if_false] at h
      split_ifs at h
      cases hp : pj content with
      | none => simp only [hp, Except.ok.injEq] at h; rw [← h]
      | some j => simp only [hp, Except.ok.injEq] at h; rw [← h]

/-- A successful dynamic tier is tagged `"local"` or `"api"`. -/
lemma dynamicResult_ok_source (t d : String) (top : Option String)
    (w : RequestWorld) (r : Artifact)
    (h : dynamicResult t d top w = .ok r) :
    r.source = some "local" ∨ r.source = some "api" := by
  unfold dynamicResult at h
  by_cases hh : checkLocalAI w.health = true
  · rw [if_pos hh] at h
    cases hloc : generateWithLocalAI t d top w.localResp with
    | ok r' =>
      rw [hloc] at h
      injection h with h
      subst h
      exact Or.inl (generateWithLocalAI_ok_source t d top w.localResp _ hloc)
    | error u =>
      rw [hloc] at h
      exact Or.inr (generateWithAPI_ok_source t d top w.apiKey w.remote w.parseJson r h)
  · rw [if_neg hh] at h
    exact Or.inr (generateWithAPI_ok_source t d top w.apiKey w.remote w.parseJson r h)

/-- When the host JSON extractor never reports a `source` key, the
post-processing step preserves the `source` tag. -/
lemma applyTextParse_source (pj : String → Option Artifact) (r : Artifact)
    (hpj : ∀ s a, pj s = some a → a.source = none) :
    (applyTextParse pj r).source = r.source := by
  unfold applyTextParse
  cases ht : r.text with
  | none => rfl
  | some t =>
    cases hp : pj t with
    | none => simp [hp]
    | some parsed =>
      have hsrc := hpj t parsed hp
      simp [hp, mergeArtifact, jsOver, hsrc]

/-- Complete case analysis of one `generateQuestion` run: a cache hit, a
cached dynamic success, or a static fallback with the cache untouched. -/
lemma generateQuestion_cases (type difficulty : String)
    (topic : Option String) (now : Nat) (c : Cache) (w : RequestWorld) :
    (∃ e, cacheGet c (cacheKeyOf type difficulty topic) = some e ∧
       now - e.timestamp < CACHE_DURATION ∧
       generateQuestion type difficulty topic now c w =
         ({ e.data with cached := some true }, c)) ∨
    (∃ r, dynamicResult type difficulty topic w = .ok r ∧
       generateQuestion type difficulty topic now c w =
         (applyTextParse w.parseJson r,
          cacheSet c (cacheKeyOf type difficulty topic)
            ⟨applyTextParse w.parseJson r, now⟩)) ∨
    (∃ err, dynamicResult type difficulty topic w = .error err ∧
       generateQuestion type difficulty topic now c w =
         (fallbackResult type difficulty, c)) := by
  rcases hg : cacheGet c (cacheKeyOf type difficulty topic) with _ | e
  · cases hd : dynamicResult type difficulty topic w with
    | ok r => exact Or.inr (Or.inl ⟨r, rfl, by simp [generateQuestion, hg, hd]⟩)
    | error err =>
      exact Or.inr (Or.inr ⟨err, rfl, by simp [generateQuestion, hg, hd]⟩)
  · by_cases httl : now - e.timestamp < CACHE_DURATION
    · exact Or.inl ⟨e, rfl, httl, by simp [generateQuestion, hg, httl]⟩
    · cases hd : dynamicResult type difficulty topic w with
      | ok r =>
        exact Or.inr (Or.inl ⟨r, rfl, by simp [generateQuestion, hg, httl, hd]⟩)
      | error err =>
        exact Or.inr (Or.inr ⟨err, rfl, by simp [generateQuestion, hg, httl, hd]⟩)

/-! ## Claims -/

/-- C8: `checkLocalAI` never throws (it is a total boolean function of the
probe outcome) and returns `true` exactly when the `/health` endpoint
answered within the 2-second timeout with the explicit status `"healthy"`;
a rejection (network error or timeout) or any other status yields
`false`. -/
theorem checkLocalAI_healthy_iff (p : HealthProbe) :
    checkLocalAI p = true ↔ p = .reply "healthy" := by
  cases p with
  | failure => simp [checkLocalAI]
  | reply s => simp [checkLocalAI]

/-- C7: the cache fingerprint is a deterministic function of
`(contentType, difficulty, topic)`, and an absent topic produces the same
fingerprint as the explicit `"default"` sentinel. -/
theorem cacheKeyOf_deterministic (t d t' d' : String) (top top' : Option String)
    (h1 : t = t') (h2 : d = d') (h3 : top = top') :
    cacheKeyOf t d top = cacheKeyOf t' d' top' ∧
    cacheKeyOf t d none = cacheKeyOf t d (some "default") := by
  subst h1; subst h2; subst h3
  exact ⟨rfl, rfl⟩

/-- Witness for C7 at `(riddle, medium, science)`. -/
theorem cacheKeyOf_deterministic_witness :
    cacheKeyOf "riddle" "medium" (some "science") =
      cacheKeyOf "riddle" "medium" (some "science") ∧
    cacheKeyOf "riddle" "medium" none =
      cacheKeyOf "riddle" "medium" (some "default") :=
  cacheKeyOf_deterministic "riddle" "medium" "riddle" "medium"
    (some "science") (some "science") rfl rfl rfl

/-- C1: `generateQuestion` never throws: on every input it resolves, and
each resolution is a cache hit, a post-processed dynamic result (which is
also cached), or — when every dynamic tier failed — the static fallback
table row for the requested type, returned with the cache untouched. -/
theorem generateQuestion_never_throws (type difficulty : String)
    (topic : Option String) (now : Nat) (c : Cache) (w : RequestWorld) :
    (∃ e, cacheGet c (cacheKeyOf type difficulty topic) = some e ∧
       now - e.timestamp < CACHE_DURATION ∧
       generateQuestion type difficulty topic now c w =
         ({ e.data with cached := some true }, c)) ∨
    (∃ r, dynamicResult type difficulty topic w = .ok r ∧
       generateQuestion type difficulty topic now c w =
         (applyTextParse w.parseJson r,
          cacheSet c (cacheKeyOf type difficulty topic)
            ⟨applyTextParse w.parseJson r, now⟩)) ∨
    (∃ err, dynamicResult type difficulty topic w = .error err ∧
       generateQuestion type difficulty topic now c w =
         (fallbackResult type difficulty, c)) :=
  generateQuestion_cases type difficulty topic now c w

/-- C2, counterexample: on a within-TTL hit for a cached locally produced
artifact, the resolved artifact's `source` is the stored `"local"` tag, not
`"cache"` as the claim states. -/
theorem generateQuestion_cache_hit_source_cex :
    (generateQuestion "riddle" "medium" none 1000 localEntryCache
       trivialWorld).1.source = some "local" ∧
    (generateQuestion "riddle" "medium" none 1000 localEntryCache
       trivialWorld).1.source ≠ some "cache" := by
  constructor
  · rfl
  · intro h
    rw [show (generateQuestion "riddle" "medium" none 1000 localEntryCache
          trivialWorld).1.source = some "local" from rfl] at h
    simp at h

/-- C2 (amended): whenever `generateQuestion` is called with a fingerprint
whose cache entry is still within TTL, it returns the cached artifact with
only the flag `cached := true` added — its `source` field stays whatever was
stored, it is not replaced by `"cache"` — and the cache, hence the entry's
timestamp, is left unchanged. -/
theorem generateQuestion_cache_hit (type difficulty : String)
    (topic : Option String) (now : Nat) (c : Cache) (w : RequestWorld)
    (e : CacheEntry)
    (hg : cacheGet c (cacheKeyOf type difficulty topic) = some e)
    (httl : now - e.timestamp < CACHE_DURATION) :
    generateQuestion type difficulty topic now c w =
      ({ e.data with cached := some true }, c) := by
  simp [generateQuestion, hg, httl]

/-- Witness for C2 (amended) on a concrete one-entry cache. -/
theorem generateQuestion_cache_hit_witness :
    cacheGet localEntryCache (cacheKeyOf "riddle" "medium" none) =
      some ⟨storedLocalArtifact, 0⟩ ∧
    (1000 : Nat) - (0 : Nat) < CACHE_DURATION ∧
    generateQuestion "riddle" "medium" none 1000 localEntryCache trivialWorld =
      ({ storedLocalArtifact with cached := some true }, localEntryCache) :=
  ⟨rfl, by decide,
   generateQuestion_cache_hit "riddle" "medium" none 1000 localEntryCache
     trivialWorld ⟨storedLocalArtifact, 0⟩ rfl (by decide)⟩

/-- C3, counterexample: an artifact produced by the remote backend adapter
is tagged `source = "api"`, which is none of the four values
`{"cache", "local", "remote", "fallback"}` the claim allows — in particular
it is not `"remote"`. -/
theorem generateQuestion_remote_source_cex :
    (generateQuestion "riddle" "medium" none 0 ([] : Cache)
       remoteWorld).1.source = some "api" ∧
    (some "api" : Option String) ∉
      [some "cache", some "local", some "remote", some "fallback"] := by
  constructor
  · rfl
  · decide

/-- C3 (amended): provided every cached artifact is tagged `"local"`,
`"api"` or `"fallback"` and the JSON extractor never reports a `source`
key, every artifact `generateQuestion` resolves to has
`source ∈ {"local", "api", "fallback"}`: the remote adapter tags
`source = "api"` (not `"remote"`), and a cache hit preserves the stored tag
instead of introducing a `"cache"` value. -/
theorem generateQuestion_source_amended (type difficulty : String)
    (topic : Option String) (now : Nat) (c : Cache) (w : RequestWorld)
    (hpj : ∀ s a, w.parseJson s = some a → a.source = none)
    (hc : ∀ k e, cacheGet c k = some e →
       e.data.source = some "local" ∨ e.data.source = some "api" ∨
       e.data.source = some "fallback") :
    (generateQuestion type difficulty topic now c w).1.source = some "local" ∨
    (generateQuestion type difficulty topic now c w).1.source = some "api" ∨
    (generateQuestion type difficulty topic now c w).1.source = some "fallback" := by
  rcases generateQuestion_cases type difficulty topic now c w with
    ⟨e, hg, httl, heq⟩ | ⟨r, hd, heq⟩ | ⟨err, hd, heq⟩
  · rw [heq]
    simpa using hc _ _ hg
  · rw [heq]
    have hsrc := applyTextParse_source w.parseJson r hpj
    rcases dynamicResult_ok_source type difficulty topic w r hd with h | h
    · left; simpa [hsrc] using h
    · right; left; simpa [hsrc] using h
  · rw [heq]
    right; right
    exact fallbackResult_source type difficulty

/-- Witness for C3 (amended) on the empty cache, local probe down, remote
answering 200 with unparseable content. -/
theorem generateQuestion_source_amended_witness :
    (generateQuestion "riddle" "medium" none 0 ([] : Cache)
       remoteWorld).1.source = some "local" ∨
    (generateQuestion "riddle" "medium" none 0 ([] : Cache)
       remoteWorld).1.source = some "api" ∨
    (generateQuestion "riddle" "medium" none 0 ([] : Cache)
       remoteWorld).1.source = some "fallback" :=
  generateQuestion_source_amended "riddle" "medium" none 0 [] remoteWorld
    (by intro s a h; simp [remoteWorld] at h)
    (by intro k e h; simp [cacheGet] at h)

/-- C4: for a cache entry inserted at time `T`, a lookup at `Tq` with
`Tq - T < 300000` ms is a hit (the entry is returned with the cache
untouched); with `Tq - T ≥ 300000` ms it is a miss — the resolved artifact
equals that of the same run on the cache without the entry — and the lookup
does not delete the expired entry: afterwards the fingerprint is still
bound (either to the old entry, or to the freshly generated one). -/
theorem generateQuestion_cache_ttl (type difficulty : String)
    (topic : Option String) (T Tq : Nat) (c : Cache) (w : RequestWorld)
    (a : Artifact)
    (hg : cacheGet c (cacheKeyOf type difficulty topic) = some ⟨a, T⟩) :
    (Tq - T < CACHE_DURATION →
       generateQuestion type difficulty topic Tq c w =
         ({ a with cached := some true }, c)) ∧
    (CACHE_DURATION ≤ Tq - T →
       (generateQuestion type difficulty topic Tq c w).1 =
         (generateQuestion type difficulty topic Tq
            (cacheErase c (cacheKeyOf type difficulty topic)) w).1 ∧
       cacheGet (generateQuestion type difficulty topic Tq c w).2
         (cacheKeyOf type difficulty topic) ≠ none) := by
  constructor
  · intro h
    simp [generateQuestion, hg, h]
  · intro h
    have hnot : ¬ (Tq - T < CACHE_DURATION) := not_lt.mpr h
    have herase := cacheGet_cacheErase_self c (cacheKeyOf type difficulty topic)
    cases hd : dynamicResult type difficulty topic w with
    | ok r =>
      constructor
      · simp [generateQuestion, hg, hnot, hd, herase]
      · simp [generateQuestion, hg, hnot, hd, cacheGet_cacheSet]
    | error err =>
      constructor
      · simp [generateQuestion, hg, hnot, hd, herase]
      · simp [generateQuestion, hg, hnot, hd]

/-- Witness for C4 at an entry stored at time 0 and looked up at 400000 ms
(expired side). -/
theorem generateQuestion_cache_ttl_witness :
    cacheGet localEntryCache (cacheKeyOf "riddle" "medium" none) =
      some ⟨storedLocalArtifact, 0⟩ ∧
    CACHE_DURATION ≤ (400000 : Nat) - 0 ∧
    ((generateQuestion "riddle" "medium" none 400000 localEntryCache
        trivialWorld).1 =
       (generateQuestion "riddle" "medium" none 400000
          (cacheErase localEntryCache (cacheKeyOf "riddle" "medium" none))
          trivialWorld).1 ∧
     cacheGet (generateQuestion "riddle" "medium" none 400000 localEntryCache
         trivialWorld).2 (cacheKeyOf "riddle" "medium" none) ≠ none) :=
  ⟨rfl, by decide,
   (generateQuestion_cache_ttl "riddle" "medium" none 0 400000 localEntryCache
      trivialWorld storedLocalArtifact rfl).2 (by decide)⟩

/-- C5: fallback artifacts are never written to the cache — whenever the
dynamic tiers fail and the run resolves from the static fallback table, the
cache is left unchanged (so the same fingerprint still misses afterwards);
moreover, provided the JSON extractor never reports a `source` key, every
entry the run adds to the cache is tagged with a source other than
`"fallback"`. -/
theorem generateQuestion_fallback_not_cached (type difficulty : String)
    (topic : Option String) (now : Nat) (c : Cache) (w : RequestWorld)
    (hpj : ∀ s a, w.parseJson s = some a → a.source = none) :
    (∀ err, dynamicResult type difficulty topic w = .error err →
       (generateQuestion type difficulty topic now c w).2 = c) ∧
    (∀ k e,
       cacheGet (generateQuestion type difficulty topic now c w).2 k = some e →
       cacheGet c k = some e ∨ e.data.source ≠ some "fallback") := by
  constructor
  · intro err herr
    rcases generateQuestion_cases type difficulty topic now c w with
      ⟨e, hg, httl, heq⟩ | ⟨r, hd, heq⟩ | ⟨err', hd, heq⟩
    · rw [heq]
    · rw [hd] at herr; simp at herr
    · rw [heq]
  · intro k e hk
    rcases generateQuestion_cases type difficulty topic now c w with
      ⟨e', hg, httl, heq⟩ | ⟨r, hd, heq⟩ | ⟨err, hd, heq⟩
    · rw [heq] at hk
      exact Or.inl hk
    · rw [heq] at hk
      simp only [cacheGet_cacheSet] at hk
      by_cases hkey : cacheKeyOf type difficulty topic = k
      · rw [if_pos hkey] at hk
        injection hk with hk
        right
        rw [← hk]
        have hsrc := applyTextParse_source w.parseJson r hpj
        rcases dynamicResult_ok_source type difficulty topic w r hd with h | h <;>
          simp [hsrc, h]
      · rw [if_neg hkey] at hk
        exact Or.inl hk
    · rw [heq] at hk
      exact Or.inl hk

/-- Witness for C5: with the empty cache and every backend failing, the
run resolves from the fallback table and the cache stays empty. -/
theorem generateQuestion_fallback_not_cached_witness :
    dynamicResult "riddle" "medium" none trivialWorld =
      .error .notConfigured ∧
    (generateQuestion "riddle" "medium" none 0 ([] : Cache)
       trivialWorld).2 = [] :=
  ⟨rfl,
   (generateQuestion_fallback_not_cached "riddle" "medium" none 0 []
      trivialWorld (by intro s a h; simp [trivialWorld] at h)).1
     .notConfigured rfl⟩

/-- C6: when the local health probe reports unavailable, the local
`/generate` endpoint is never consulted — the dynamic tier is exactly the
remote adapter, and the whole run is independent of whatever the local
endpoint would have answered. -/
theorem generateQuestion_local_unavailable (type difficulty : String)
    (topic : Option String) (now : Nat) (c : Cache) (w : RequestWorld)
    (r r' : Option Artifact)
    (h : checkLocalAI w.health = false) :
    dynamicResult type difficulty topic w =
      generateWithAPI type difficulty topic w.apiKey w.remote w.parseJson ∧
    generateQuestion type difficulty topic now c { w with localResp := r } =
      generateQuestion type difficulty topic now c { w with localResp := r' } := by
  have hb : ∀ lr : Option Artifact,
      dynamicResult type difficulty topic { w with localResp := lr } =
        generateWithAPI type difficulty topic w.apiKey w.remote w.parseJson := by
    intro lr
    simp [dynamicResult, h]
  constructor
  · simp [dynamicResult, h]
  · simp [generateQuestion, hb]

/-- Witness for C6 with the probe down and a configured remote backend. -/
theorem generateQuestion_local_unavailable_witness :
    checkLocalAI remoteWorld.health = false ∧
    (dynamicResult "riddle" "medium" none remoteWorld =
       generateWithAPI "riddle" "medium" none remoteWorld.apiKey
         remoteWorld.remote remoteWorld.parseJson ∧
     generateQuestion "riddle" "medium" none 0 []
         { remoteWorld with localResp := none } =
       generateQuestion "riddle" "medium" none 0 []
         { remoteWorld with localResp := some storedLocalArtifact }) :=
  ⟨rfl,
   generateQuestion_local_unavailable "riddle" "medium" none 0 [] remoteWorld
     none (some storedLocalArtifact) rfl⟩

/-- C9: for the request `(riddle, medium, null)`, when the local probe
reports unavailable and the remote credential is absent, empty or the known
placeholder, `generateQuestion` resolves to the static riddle artifact:
`source = "fallback"`, `category = "logic"`, and answer `"An echo"`. -/
theorem generateQuestion_riddle_fallback_scenario (now : Nat) (c : Cache)
    (w : RequestWorld)
    (hmiss : cacheGet c (cacheKeyOf "riddle" "medium" none) = none)
    (hhealth : checkLocalAI w.health = false)
    (hkey : apiKeyMissing w.apiKey = true) :
    generateQuestion "riddle" "medium" none now c w =
      (riddleFallback "medium", c) ∧
    (riddleFallback "medium").source = some "fallback" ∧
    (riddleFallback "medium").category = some "logic" ∧
    (riddleFallback "medium").a = some "An echo" := by
  refine ⟨?_, rfl, rfl, rfl⟩
  have hd : dynamicResult "riddle" "medium" none w = .error .notConfigured := by
    simp [dynamicResult, hhealth, generateWithAPI, hkey]
  simp [generateQuestion, hmiss, hd, fallbackResult, fallbackTable]

/-- Witness for C9 on the empty cache with every backend unavailable. -/
theorem generateQuestion_riddle_fallback_scenario_witness :
    cacheGet ([] : Cache) (cacheKeyOf "riddle" "medium" none) = none ∧
    checkLocalAI trivialWorld.health = false ∧
    apiKeyMissing trivialWorld.apiKey = true ∧
    (generateQuestion "riddle" "medium" none 0 ([] : Cache) trivialWorld =
       (riddleFallback "medium", ([] : Cache)) ∧
     (riddleFallback "medium").source = some "fallback" ∧
     (riddleFallback "medium").category = some "logic" ∧
     (riddleFallback "medium").a = some "An echo") :=
  ⟨rfl, rfl, rfl,
   generateQuestion_riddle_fallback_scenario 0 [] trivialWorld rfl rfl rfl⟩

/-- C10, counterexample: at `type = "toString"` the JS lookup
`fallbacks[type]` finds the truthy inherited `Object.prototype.toString`
member on the prototype chain, so `fallbacks[type] || fallbacks.riddle`
returns that inherited member — not the static riddle fallback the claim
promises for every type outside `{riddle, trivia, emoji, word}`. -/
theorem fallbackLookup_protoKey_cex :
    fallbackLookup "toString" "medium" = .protoMember "toString" ∧
    fallbackLookup "toString" "medium" ≠ .row (riddleFallback "medium") := by
  constructor
  · decide
  · decide

/-- C10 (amended): for a contentType outside `{riddle, trivia, emoji,
word}` that is not an inherited `Object.prototype` member, when the
request is not served from cache and every dynamic tier fails, the
fallback lookup yields the riddle row (the default for a type with no row
of its own) and `generateQuestion` resolves to the static riddle fallback;
at an inherited-member type the lookup instead returns the truthy
inherited prototype member. -/
theorem generateQuestion_unknown_type_riddle_default (type difficulty : String)
    (topic : Option String) (now : Nat) (c : Cache) (w : RequestWorld)
    (err : ApiError)
    (h1 : type ≠ "riddle") (h2 : type ≠ "trivia") (h3 : type ≠ "emoji")
    (h4 : type ≠ "word")
    (hproto : type ∉ objectProtoKeys)
    (hmiss : cacheGet c (cacheKeyOf type difficulty topic) = none)
    (hfail : dynamicResult type difficulty topic w = .error err) :
    fallbackLookup type difficulty = .row (riddleFallback difficulty) ∧
    generateQuestion type difficulty topic now c w =
      (riddleFallback difficulty, c) := by
  constructor
  · simp [fallbackLookup, fallbackTable, h1, h2, h3, h4, hproto]
  · simp [generateQuestion, hmiss, hfail, fallbackResult, fallbackTable,
      h1, h2, h3, h4]

/-- Witness for C10 (amended) at the unknown, non-prototype type
`"chess"`. -/
theorem generateQuestion_unknown_type_riddle_default_witness :
    ("chess" : String) ≠ "riddle" ∧ ("chess" : String) ≠ "trivia" ∧
    ("chess" : String) ≠ "emoji" ∧ ("chess" : String) ≠ "word" ∧
    ("chess" : String) ∉ objectProtoKeys ∧
    cacheGet ([] : Cache) (cacheKeyOf "chess" "medium" none) = none ∧
    dynamicResult "chess" "medium" none trivialWorld =
      .error .notConfigured ∧
    (fallbackLookup "chess" "medium" = .row (riddleFallback "medium") ∧
     generateQuestion "chess" "medium" none 0 ([] : Cache) trivialWorld =
       (riddleFallback "medium", ([] : Cache))) :=
  ⟨by decide, by decide, by decide, by decide, by decide, rfl, rfl,
   generateQuestion_unknown_type_riddle_default "chess" "medium" none 0 []
     trivialWorld .notConfigured (by decide) (by decide) (by decide)
     (by decide) (by decide) rfl rfl⟩

end EVol
